import Mathlib

/-!
Shallow embedding of the vita subdomain-discovery tool's source adapters
(src/sources/anubisdb.rs, certspotter.rs, facebook.rs, passivetotal.rs) and of
the CLI consumer loop (src/bin/main.rs).

Network interactions are modelled as explicit inputs: each adapter's `run` is a
pure function of the host, the environment (for keyed sources) and the outcome
of its HTTP exchanges, returning the list of requests it issued, the batches it
pushed to the sink, and its `Result` value.  A Rust panic is modelled as
`Option.none`.
-/

namespace Vita

/-- JSON values as handled by serde_json's `Value` (numbers restricted to
integers; object entries kept as an ordered association list). -/
inductive Json where
  | null : Json
  | bool : Bool → Json
  | num : Int → Json
  | str : String → Json
  | arr : List Json → Json
  | obj : List (String × Json) → Json

/-- Lowercase hexadecimal digit, as used by serde_json's escape table. -/
def hexDigit (n : Nat) : Char :=
  if n < 10 then Char.ofNat (48 + n) else Char.ofNat (87 + n)

/-- serde_json's escaping of a single character inside a JSON string. -/
def escapeChar (c : Char) : String :=
  if c = '"' then "\\\""
  else if c = '\\' then "\\\\"
  else if c = Char.ofNat 8 then "\\b"
  else if c = Char.ofNat 12 then "\\f"
  else if c = '\n' then "\\n"
  else if c = Char.ofNat 13 then "\\r"
  else if c = '\t' then "\\t"
  else if c.toNat < 32 then
    "\\u00" ++ String.mk [hexDigit (c.toNat / 16), hexDigit (c.toNat % 16)]
  else String.mk [c]

/-- serde_json's escaping of the body of a JSON string. -/
def escapeString (s : String) : String :=
  String.join (s.data.map escapeChar)

mutual

/-- Compact serialization of a JSON value, as produced by serde_json's
`Value::to_string` (the `Display` impl used by `anubisdb.rs` line 26). -/
def jsonToString : Json → String
  | .null => "null"
  | .bool b => if b then "true" else "false"
  | .num n => toString n
  | .str s => "\"" ++ escapeString s ++ "\""
  | .arr xs => "[" ++ jsonArrBody xs ++ "]"
  | .obj kvs => "\x7b" ++ jsonObjBody kvs ++ "\x7d"

/-- Comma-separated serialization of the elements of a JSON array. -/
def jsonArrBody : List Json → String
  | [] => ""
  | [x] => jsonToString x
  | x :: y :: rest => jsonToString x ++ "," ++ jsonArrBody (y :: rest)

/-- Comma-separated serialization of the entries of a JSON object. -/
def jsonObjBody : List (String × Json) → String
  | [] => ""
  | [(k, v)] => "\"" ++ escapeString k ++ "\":" ++ jsonToString v
  | (k, v) :: kv :: rest =>
      "\"" ++ escapeString k ++ "\":" ++ jsonToString v ++ "," ++ jsonObjBody (kv :: rest)

end

/-- The error values an adapter can return, mirroring vita's error
constructors (`Error::source_error`, `Error::key_error`, `Error::auth_error`)
and the propagation of HTTP client errors through `?`. -/
inductive VErr where
  | sourceError (source : String) (host : String)
  | keyError (source : String) (vars : List String)
  | authError (source : String)
  | transport
  | decode
deriving DecidableEq

/-- Which HTTP machinery a request goes through: the shared `reqwest::Client`
stored in the adapter, or `surf`'s global client (a free `surf::get` call). -/
inductive HttpChannel where
  | sharedClient
  | surfGlobal
deriving DecidableEq

/-- One outbound HTTP request, tagged with the channel it was issued on. -/
structure Request where
  channel : HttpChannel
  url : String
deriving DecidableEq

/-- Outcome of one HTTP exchange whose body deserializes to `α`:
the send itself can fail (transport/timeout), the body can fail to
deserialize, or a value is produced. -/
inductive NetResult (α : Type) where
  | transportErr : NetResult α
  | decodeErr : NetResult α
  | ok (val : α) : NetResult α

/-- Observable behaviour of one sink-based adapter `run` call: the requests it
issued, the batches it pushed to the sink, and its returned `Result`. -/
structure RunResult where
  requests : List Request
  sends : List (List String)
  result : Except VErr Unit

/-! ## AnubisDB (src/sources/anubisdb.rs) -/

/-- AnubisDB::build_url. -/
def anubisBuildUrl (host : String) : String :=
  "https://jldc.me/anubis/subdomains/" ++ host

/-- AnubisResult::subdomains: `self.results.as_array().unwrap().iter()
.map(|s| s.to_string()).collect()`.  The `.unwrap()` panics (modelled as
`none`) when the JSON value is not an array. -/
def anubisSubdomains (v : Json) : Option (List String) :=
  match v with
  | .arr xs => some (xs.map jsonToString)
  | _ => none

/-- AnubisDB::run.  `net` is the outcome of `client.get(uri).send().await?
.json().await?` deserialized as `Option<Value>` (serde maps a JSON `null`
body to `None`). -/
def anubisRun (host : String) (net : NetResult (Option Json)) : Option RunResult :=
  let req : Request := ⟨.sharedClient, anubisBuildUrl host⟩
  match net with
  | .transportErr => some ⟨[req], [], .error .transport⟩
  | .decodeErr => some ⟨[req], [], .error .decode⟩
  | .ok (some d) =>
    match anubisSubdomains d with
    | none => none
    | some subdomains =>
      if subdomains.isEmpty then
        some ⟨[req], [], .error (.sourceError "AnubisDB" host)⟩
      else
        some ⟨[req], [subdomains], .ok ()⟩
  | .ok none => some ⟨[req], [], .error (.sourceError "AnubisDB" host)⟩

/-! ## CertSpotter (src/sources/certspotter.rs) -/

/-- The deserialized shape of one CertSpotter issuance record. -/
structure CertSpotterResult where
  dns_names : List String

/-- certspotter.rs `build_url`. -/
def certspotterBuildUrl (host : String) : String :=
  "https://api.certspotter.com/v1/issuances?domain=" ++ host ++
    "&include_subdomains=true&expand=dns_names"

/-- `HashSet::insert` on a set modelled as a duplicate-free list (membership
semantics; a fresh element is recorded, a present one is not). -/
def hashSetInsert (s : List String) (x : String) : List String :=
  if x ∈ s then s else s ++ [x]

/-- Observable behaviour of certspotter's `run`: requests issued, lines
printed to stderr, and the returned `Result<HashSet<String>>`.  This adapter
has no sink parameter at all. -/
structure CertSpotterRun where
  requests : List Request
  stderrLines : List String
  result : Except VErr (List String)

/-- certspotter.rs `run`: issues `surf::get(uri)`, deserializes
`Option<Vec<CertSpotterResult>>`, inserts every `dns_names` entry into a
`HashSet`, and returns `Ok(results)` — also when the set is empty (the `None`
arm only prints to stderr). -/
def certspotterRun (host : String)
    (net : NetResult (Option (List CertSpotterResult))) : CertSpotterRun :=
  let req : Request := ⟨.surfGlobal, certspotterBuildUrl host⟩
  match net with
  | .transportErr => ⟨[req], [], .error .transport⟩
  | .decodeErr => ⟨[req], [], .error .decode⟩
  | .ok (some data) =>
      ⟨[req], [], .ok (((data.map (·.dns_names)).flatten).foldl hashSetInsert [])⟩
  | .ok none =>
      ⟨[req], ["CertSpotter couldn't find results for: " ++ host], .ok []⟩

/-! ## Shared environment for keyed sources -/

/-- The credential-bearing environment variables read by the keyed adapters
(`env::var` after `dotenv().ok()`). -/
structure Env where
  fb_app_id : Option String
  fb_app_secret : Option String
  passivetotal_key : Option String
  passivetotal_secret : Option String

/-! ## Facebook (src/sources/facebook.rs) -/

/-- Facebook `Creds`. -/
structure FbCreds where
  app_id : String
  app_secret : String

/-- Creds::read_creds: both `FB_APP_ID` and `FB_APP_SECRET` must be set,
otherwise `Error::key_error`. -/
def fbReadCreds (env : Env) : Except VErr FbCreds :=
  match env.fb_app_id, env.fb_app_secret with
  | some i, some s => .ok ⟨i, s⟩
  | _, _ => .error (.keyError "Facebook" ["FB_APP_ID", "FB_APP_SECRET"])

/-- URL built inside Creds::authenticate. -/
def fbAuthUrl (c : FbCreds) : String :=
  "https://graph.facebook.com/oauth/access_token?client_id=" ++ c.app_id ++
    "&client_secret=" ++ c.app_secret ++ "&grant_type=client_credentials"

/-- Creds::authenticate: one request on the shared client, deserializing
`Option<AuthResp>`; a `None` body is `Error::auth_error("Facebook")`. -/
def fbAuthenticate (c : FbCreds) (net : NetResult (Option String)) :
    List Request × Except VErr String :=
  let req : Request := ⟨.sharedClient, fbAuthUrl c⟩
  match net with
  | .transportErr => ([req], .error .transport)
  | .decodeErr => ([req], .error .decode)
  | .ok (some token) => ([req], .ok token)
  | .ok none => ([req], .error (.authError "Facebook"))

/-- One `Subdomains` record of the Facebook response. -/
structure FbSubdomains where
  domains : List String

/-- The deserialized `FacebookResult`. -/
structure FacebookResult where
  data : List FbSubdomains

/-- FacebookResult::subdomains: `self.data.iter().flat_map(|s|
s.domains.to_owned()).collect()`. -/
def fbSubdomains (r : FacebookResult) : List String :=
  r.data.flatMap (·.domains)

/-- Facebook::build_url. -/
def fbBuildUrl (host : String) (token : String) : String :=
  "https://graph.facebook.com/certificates?fields=domains&access_token=" ++
    token ++ "&query=*." ++ host

/-- Facebook::run.  Credentials are read first (a failure is remapped to
`Error::key_error` and nothing is sent); authentication errors propagate via
`?`; then the main request's `Option<FacebookResult>` body is handled exactly
as in AnubisDB::run. -/
def facebookRun (env : Env) (host : String)
    (authNet : NetResult (Option String))
    (net : NetResult (Option FacebookResult)) : RunResult :=
  match fbReadCreds env with
  | .error _ =>
      ⟨[], [], .error (.keyError "Facebook" ["FB_APP_ID", "FB_APP_SECRET"])⟩
  | .ok c =>
    match fbAuthenticate c authNet with
    | (reqs, .error e) => ⟨reqs, [], .error e⟩
    | (reqs, .ok token) =>
      let req : Request := ⟨.sharedClient, fbBuildUrl host token⟩
      match net with
      | .transportErr => ⟨reqs ++ [req], [], .error .transport⟩
      | .decodeErr => ⟨reqs ++ [req], [], .error .decode⟩
      | .ok (some data) =>
        let subdomains := fbSubdomains data
        if subdomains.isEmpty then
          ⟨reqs ++ [req], [], .error (.sourceError "Facebook" host)⟩
        else
          ⟨reqs ++ [req], [subdomains], .ok ()⟩
      | .ok none =>
          ⟨reqs ++ [req], [], .error (.sourceError "Facebook" host)⟩

/-! ## PassiveTotal (src/sources/passivetotal.rs) -/

/-- Creds::from_env for PassiveTotal: both `PASSIVETOTAL_KEY` and
`PASSIVETOTAL_SECRET` must be set, otherwise `Error::key_error`. -/
def ptReadCreds (env : Env) : Except VErr (String × String) :=
  match env.passivetotal_key, env.passivetotal_secret with
  | some k, some s => .ok (k, s)
  | _, _ =>
      .error (.keyError "PassiveTotal" ["PASSIVETOTAL_KEY", "PASSIVETOTAL_SECRET"])

/-- The deserialized `PassiveTotalResult`. -/
structure PassiveTotalResult where
  success : Bool
  primaryDomain : String
  subdomains : List String

/-- PassiveTotalResult::subdomains: `self.subdomains.iter().map(|s|
format!("\x7b\x7d.\x7b\x7d", s, self.primary_domain)).collect()`. -/
def ptSubdomains (r : PassiveTotalResult) : List String :=
  r.subdomains.map (fun s => s ++ "." ++ r.primaryDomain)

/-- PassiveTotal::build_url (constant; the host travels in the request body). -/
def ptBuildUrl : String :=
  "https://api.passivetotal.org/v2/enrichment/subdomains"

/-- Outcome of PassiveTotal's HTTP exchange: the send can fail, the response
status can be a client error (checked before decoding), or the body decodes
(or fails to decode) as `PassiveTotalResult`. -/
inductive PtNet where
  | transportErr : PtNet
  | clientError : PtNet
  | decodeErr : PtNet
  | ok (r : PassiveTotalResult) : PtNet

/-- PassiveTotal::run.  Credentials are read first (a failure is returned
as-is, nothing sent); a 4xx status yields `Error::auth_error("passivetotal")`;
otherwise the body is decoded and an empty subdomain list is
`Error::source_error`. -/
def passivetotalRun (env : Env) (host : String) (net : PtNet) : RunResult :=
  match ptReadCreds env with
  | .error e => ⟨[], [], .error e⟩
  | .ok _ =>
    let req : Request := ⟨.sharedClient, ptBuildUrl⟩
    match net with
    | .transportErr => ⟨[req], [], .error .transport⟩
    | .clientError => ⟨[req], [], .error (.authError "passivetotal")⟩
    | .decodeErr => ⟨[req], [], .error .decode⟩
    | .ok r =>
      let subdomains := ptSubdomains r
      if subdomains.isEmpty then
        ⟨[req], [], .error (.sourceError "PassiveTotal" host)⟩
      else
        ⟨[req], [subdomains], .ok ()⟩

/-! ## The CLI consumer loop (src/bin/main.rs, `main`) -/

/-- Modelled from the spec: `CleanExt::clean` (the PostProcessor application;
its source lives outside src/) applies the cleaner, a deterministic
`String → Option<String>`, to each element of a batch, keeping the `Some`
results in order. -/
def cleanBatch (cleanFn : String → Option String) (batch : List String) : List String :=
  batch.filterMap cleanFn

/-- The lines printed to stdout by `main`'s consumption loop, as a function of
the cleaner, the `--flush` flag and the sequence of batches yielded by the
runner's stream.  With `flush` each cleaned hostname is printed as produced;
otherwise cleaned hostnames are accumulated into a `HashSet` that is printed
after the stream ends. -/
def mainOutput (cleanFn : String → Option String) (flush : Bool)
    (batches : List (List String)) : List String :=
  if flush then
    (batches.map (cleanBatch cleanFn)).flatten
  else
    ((batches.map (cleanBatch cleanFn)).flatten).foldl hashSetInsert []

/-! ## Helper lemmas -/

/-- Membership after folding `hashSetInsert` comes from the seed or the folded
list. -/
theorem mem_foldl_hashSetInsert {x : String} :
    ∀ (l init : List String), x ∈ l.foldl hashSetInsert init → x ∈ init ∨ x ∈ l := by
  intro l
  induction l with
  | nil => intro init h; exact Or.inl h
  | cons a t ih =>
    intro init h
    rcases ih (hashSetInsert init a) h with h1 | h1
    · unfold hashSetInsert at h1
      by_cases ha : a ∈ init
      · simp only [if_pos ha] at h1
        exact Or.inl h1
      · simp only [if_neg ha, List.mem_append, List.mem_singleton] at h1
        rcases h1 with h1 | h1
        · exact Or.inl h1
        · exact Or.inr (by simp [h1])
    · exact Or.inr (List.mem_cons_of_mem _ h1)

/-- `hashSetInsert` preserves freedom from duplicates. -/
theorem nodup_hashSetInsert (s : List String) (x : String) (h : s.Nodup) :
    (hashSetInsert s x).Nodup := by
  unfold hashSetInsert
  by_cases hx : x ∈ s
  · simpa [hx]
  · simp [hx, List.nodup_append, h]

/-- Folding `hashSetInsert` from a duplicate-free seed stays duplicate-free. -/
theorem nodup_foldl_hashSetInsert :
    ∀ (l init : List String), init.Nodup → (l.foldl hashSetInsert init).Nodup := by
  intro l
  induction l with
  | nil => intro init h; exact h
  | cons a t ih => intro init h; exact ih _ (nodup_hashSetInsert _ _ h)

/-- A mapped list corresponds to its source element by element, in order. -/
theorem forall₂_map_self {α β : Type} (f : α → β) (xs : List α) :
    List.Forall₂ (fun a b => b = f a) xs (xs.map f) := by
  induction xs with
  | nil => exact List.Forall₂.nil
  | cons a t ih => exact List.Forall₂.cons rfl ih

/-- Facebook::run when a credential variable is absent: nothing is requested,
nothing is sent, and `Error::key_error` is returned. -/
theorem facebook_missing_creds (env : Env) (host : String)
    (anet : NetResult (Option String)) (net : NetResult (Option FacebookResult))
    (h : env.fb_app_id = none ∨ env.fb_app_secret = none) :
    facebookRun env host anet net =
      ⟨[], [], .error (.keyError "Facebook" ["FB_APP_ID", "FB_APP_SECRET"])⟩ := by
  obtain ⟨i, s, k, sec⟩ := env
  rcases h with h | h
  · cases h; cases s <;> rfl
  · cases h; cases i <;> rfl

/-- PassiveTotal::run when a credential variable is absent: nothing is
requested, nothing is sent, and `Error::key_error` is returned. -/
theorem passivetotal_missing_creds (env : Env) (host : String) (net : PtNet)
    (h : env.passivetotal_key = none ∨ env.passivetotal_secret = none) :
    passivetotalRun env host net =
      ⟨[], [], .error (.keyError "PassiveTotal"
        ["PASSIVETOTAL_KEY", "PASSIVETOTAL_SECRET"])⟩ := by
  obtain ⟨i, s, k, sec⟩ := env
  rcases h with h | h
  · cases h; cases sec <;> rfl
  · cases h; cases k <;> rfl

/-! ## Claim theorems -/

/-- C1 counterexample: the claim says every adapter returns an error when the
extracted candidate list is empty, but certspotter.rs `run`, given a response
that deserializes to zero issuance records, pushes nothing to any sink yet
returns `Ok` with an empty set instead of `Err(no_results)`. -/
theorem C1_certspotter_ok_on_empty :
    (certspotterRun "example.com" (.ok (some []))).result = .ok [] ∧
    (certspotterRun "example.com" (.ok (some []))).result.isOk = true :=
  ⟨rfl, rfl⟩

/-- C1 (amended): for the sink-based adapters — AnubisDB, Facebook,
PassiveTotal — every empty-list, transport, decode, error-status and
missing-credentials path sends no batch and returns the error of the
corresponding kind; CertSpotter deviates by returning `Ok` with an empty set
on an empty or absent result list. -/
theorem C1_sink_adapter_error_paths :
    (∀ host, anubisRun host .transportErr =
      some ⟨[⟨.sharedClient, anubisBuildUrl host⟩], [], .error .transport⟩) ∧
    (∀ host, anubisRun host .decodeErr =
      some ⟨[⟨.sharedClient, anubisBuildUrl host⟩], [], .error .decode⟩) ∧
    (∀ host, anubisRun host (.ok none) =
      some ⟨[⟨.sharedClient, anubisBuildUrl host⟩], [],
        .error (.sourceError "AnubisDB" host)⟩) ∧
    (∀ host, anubisRun host (.ok (some (Json.arr []))) =
      some ⟨[⟨.sharedClient, anubisBuildUrl host⟩], [],
        .error (.sourceError "AnubisDB" host)⟩) ∧
    (∀ env host anet net, (env.fb_app_id = none ∨ env.fb_app_secret = none) →
      facebookRun env host anet net =
        ⟨[], [], .error (.keyError "Facebook" ["FB_APP_ID", "FB_APP_SECRET"])⟩) ∧
    (∀ i s p1 p2 host net,
      facebookRun ⟨some i, some s, p1, p2⟩ host .transportErr net =
        ⟨[⟨.sharedClient, fbAuthUrl ⟨i, s⟩⟩], [], .error .transport⟩) ∧
    (∀ i s p1 p2 host net,
      facebookRun ⟨some i, some s, p1, p2⟩ host .decodeErr net =
        ⟨[⟨.sharedClient, fbAuthUrl ⟨i, s⟩⟩], [], .error .decode⟩) ∧
    (∀ i s p1 p2 host net,
      facebookRun ⟨some i, some s, p1, p2⟩ host (.ok none) net =
        ⟨[⟨.sharedClient, fbAuthUrl ⟨i, s⟩⟩], [], .error (.authError "Facebook")⟩) ∧
    (∀ i s p1 p2 host tok,
      facebookRun ⟨some i, some s, p1, p2⟩ host (.ok (some tok)) .transportErr =
        ⟨[⟨.sharedClient, fbAuthUrl ⟨i, s⟩⟩, ⟨.sharedClient, fbBuildUrl host tok⟩],
          [], .error .transport⟩) ∧
    (∀ i s p1 p2 host tok,
      facebookRun ⟨some i, some s, p1, p2⟩ host (.ok (some tok)) .decodeErr =
        ⟨[⟨.sharedClient, fbAuthUrl ⟨i, s⟩⟩, ⟨.sharedClient, fbBuildUrl host tok⟩],
          [], .error .decode⟩) ∧
    (∀ i s p1 p2 host tok,
      facebookRun ⟨some i, some s, p1, p2⟩ host (.ok (some tok)) (.ok none) =
        ⟨[⟨.sharedClient, fbAuthUrl ⟨i, s⟩⟩, ⟨.sharedClient, fbBuildUrl host tok⟩],
          [], .error (.sourceError "Facebook" host)⟩) ∧
    (∀ i s p1 p2 host tok d, fbSubdomains d = [] →
      facebookRun ⟨some i, some s, p1, p2⟩ host (.ok (some tok)) (.ok (some d)) =
        ⟨[⟨.sharedClient, fbAuthUrl ⟨i, s⟩⟩, ⟨.sharedClient, fbBuildUrl host tok⟩],
          [], .error (.sourceError "Facebook" host)⟩) ∧
    (∀ env host net, (env.passivetotal_key = none ∨ env.passivetotal_secret = none) →
      passivetotalRun env host net =
        ⟨[], [], .error (.keyError "PassiveTotal"
          ["PASSIVETOTAL_KEY", "PASSIVETOTAL_SECRET"])⟩) ∧
    (∀ i s k sec host, passivetotalRun ⟨i, s, some k, some sec⟩ host .transportErr =
      ⟨[⟨.sharedClient, ptBuildUrl⟩], [], .error .transport⟩) ∧
    (∀ i s k sec host, passivetotalRun ⟨i, s, some k, some sec⟩ host .clientError =
      ⟨[⟨.sharedClient, ptBuildUrl⟩], [], .error (.authError "passivetotal")⟩) ∧
    (∀ i s k sec host, passivetotalRun ⟨i, s, some k, some sec⟩ host .decodeErr =
      ⟨[⟨.sharedClient, ptBuildUrl⟩], [], .error .decode⟩) ∧
    (∀ i s k sec host r, r.subdomains = [] →
      passivetotalRun ⟨i, s, some k, some sec⟩ host (.ok r) =
        ⟨[⟨.sharedClient, ptBuildUrl⟩], [],
          .error (.sourceError "PassiveTotal" host)⟩) := by
  refine ⟨fun host => rfl, fun host => rfl, fun host => rfl, fun host => rfl,
    facebook_missing_creds, fun i s p1 p2 host net => rfl,
    fun i s p1 p2 host net => rfl, fun i s p1 p2 host net => rfl,
    fun i s p1 p2 host tok => rfl, fun i s p1 p2 host tok => rfl,
    fun i s p1 p2 host tok => rfl, ?_, passivetotal_missing_creds,
    fun i s k sec host => rfl, fun i s k sec host => rfl,
    fun i s k sec host => rfl, ?_⟩
  · intro i s p1 p2 host tok d hd
    simp [facebookRun, fbReadCreds, fbAuthenticate, hd]
  · intro i s k sec host r hr
    simp [passivetotalRun, ptReadCreds, ptSubdomains, hr]

/-- C1 witness: the hypothesis-bearing branches of the amended error contract
instantiated at concrete inputs. -/
theorem C1_error_paths_witness :
    facebookRun ⟨none, some "s", none, none⟩ "example.com" (.ok (some "t")) (.ok none) =
      ⟨[], [], .error (.keyError "Facebook" ["FB_APP_ID", "FB_APP_SECRET"])⟩ ∧
    facebookRun ⟨some "i", some "s", none, none⟩ "example.com" (.ok (some "t"))
        (.ok (some ⟨[]⟩)) =
      ⟨[⟨.sharedClient, fbAuthUrl ⟨"i", "s"⟩⟩,
        ⟨.sharedClient, fbBuildUrl "example.com" "t"⟩],
        [], .error (.sourceError "Facebook" "example.com")⟩ ∧
    passivetotalRun ⟨none, none, none, some "sec"⟩ "example.com" .transportErr =
      ⟨[], [], .error (.keyError "PassiveTotal"
        ["PASSIVETOTAL_KEY", "PASSIVETOTAL_SECRET"])⟩ ∧
    passivetotalRun ⟨none, none, some "k", some "sec"⟩ "example.com"
        (.ok ⟨true, "example.com", []⟩) =
      ⟨[⟨.sharedClient, ptBuildUrl⟩], [],
        .error (.sourceError "PassiveTotal" "example.com")⟩ :=
  ⟨C1_sink_adapter_error_paths.2.2.2.2.1 _ _ _ _ (Or.inl rfl),
    C1_sink_adapter_error_paths.2.2.2.2.2.2.2.2.2.2.2.1 "i" "s" none none
      "example.com" "t" ⟨[]⟩ rfl,
    C1_sink_adapter_error_paths.2.2.2.2.2.2.2.2.2.2.2.2.1 _ _ _ (Or.inl rfl),
    C1_sink_adapter_error_paths.2.2.2.2.2.2.2.2.2.2.2.2.2.2.2.2 none none
      "k" "sec" "example.com" ⟨true, "example.com", []⟩ rfl⟩

/-- C2: for each sink-based adapter, a response whose extracted candidate list
is non-empty leads to exactly one batch — containing exactly that list — being
sent, and to an `Ok` return. -/
theorem C2_nonempty_single_batch :
    (∀ host xs, xs ≠ [] →
      anubisRun host (.ok (some (Json.arr xs))) =
        some ⟨[⟨.sharedClient, anubisBuildUrl host⟩],
          [xs.map jsonToString], .ok ()⟩) ∧
    (∀ i s p1 p2 host tok d, fbSubdomains d ≠ [] →
      facebookRun ⟨some i, some s, p1, p2⟩ host (.ok (some tok)) (.ok (some d)) =
        ⟨[⟨.sharedClient, fbAuthUrl ⟨i, s⟩⟩, ⟨.sharedClient, fbBuildUrl host tok⟩],
          [fbSubdomains d], .ok ()⟩) ∧
    (∀ i s k sec host r, r.subdomains ≠ [] →
      passivetotalRun ⟨i, s, some k, some sec⟩ host (.ok r) =
        ⟨[⟨.sharedClient, ptBuildUrl⟩], [ptSubdomains r], .ok ()⟩) := by
  refine ⟨?_, ?_, ?_⟩
  · intro host xs hx
    rcases xs with _ | ⟨y, ys⟩
    · exact absurd rfl hx
    · rfl
  · intro i s p1 p2 host tok d hd
    rcases he : fbSubdomains d with _ | ⟨y, ys⟩
    · exact absurd he hd
    · simp [facebookRun, fbReadCreds, fbAuthenticate, he]
  · intro i s k sec host r hr
    rcases he : r.subdomains with _ | ⟨y, ys⟩
    · exact absurd he hr
    · simp [passivetotalRun, ptReadCreds, ptSubdomains, he]

/-- C2 witness: each non-empty branch instantiated at a concrete response. -/
theorem C2_nonempty_witness :
    anubisRun "example.com" (.ok (some (Json.arr [Json.str "a.example.com"]))) =
      some ⟨[⟨.sharedClient, anubisBuildUrl "example.com"⟩],
        [[jsonToString (Json.str "a.example.com")]], .ok ()⟩ ∧
    facebookRun ⟨some "i", some "s", none, none⟩ "example.com" (.ok (some "t"))
        (.ok (some ⟨[⟨["a.example.com"]⟩]⟩)) =
      ⟨[⟨.sharedClient, fbAuthUrl ⟨"i", "s"⟩⟩,
        ⟨.sharedClient, fbBuildUrl "example.com" "t"⟩],
        [fbSubdomains ⟨[⟨["a.example.com"]⟩]⟩], .ok ()⟩ ∧
    passivetotalRun ⟨none, none, some "k", some "sec"⟩ "example.com"
        (.ok ⟨true, "example.com", ["www"]⟩) =
      ⟨[⟨.sharedClient, ptBuildUrl⟩],
        [ptSubdomains ⟨true, "example.com", ["www"]⟩], .ok ()⟩ :=
  ⟨C2_nonempty_single_batch.1 "example.com" [Json.str "a.example.com"]
      (List.cons_ne_nil _ _),
    C2_nonempty_single_batch.2.1 "i" "s" none none "example.com" "t"
      ⟨[⟨["a.example.com"]⟩]⟩ (by simp [fbSubdomains]),
    C2_nonempty_single_batch.2.2 none none "k" "sec" "example.com"
      ⟨true, "example.com", ["www"]⟩ (List.cons_ne_nil _ _)⟩

/-- C3: the spec's adapter contract forbids panics, but AnubisDB::run panics
(modelled as `none`) whenever the response body is valid JSON that is not an
array — `AnubisResult::subdomains` calls `.as_array().unwrap()` — e.g. on the
JSON string body `"oops"`. -/
theorem C3_anubis_panics_on_non_array :
    anubisRun "example.com" (.ok (some (Json.str "oops"))) = none := rfl

/-- All requests AnubisDB::run issues (when it returns at all) go through the
shared client, at AnubisDB's URL. -/
theorem anubis_requests (host : String) (net : NetResult (Option Json))
    (r : RunResult) (h : anubisRun host net = some r) :
    r.requests = [⟨.sharedClient, anubisBuildUrl host⟩] := by
  cases net with
  | transportErr => cases h; rfl
  | decodeErr => cases h; rfl
  | ok v =>
    cases v with
    | none => cases h; rfl
    | some d =>
      cases d with
      | arr xs =>
        dsimp only [anubisRun, anubisSubdomains] at h
        by_cases he : (xs.map jsonToString).isEmpty <;> simp [he] at h <;>
          simp [← h]
      | null => exact Option.noConfusion h
      | bool b => exact Option.noConfusion h
      | num n => exact Option.noConfusion h
      | str s => exact Option.noConfusion h
      | obj kvs => exact Option.noConfusion h

/-- Every request Facebook::run issues goes through the shared client. -/
theorem facebook_requests_shared (env : Env) (host : String)
    (anet : NetResult (Option String)) (net : NetResult (Option FacebookResult))
    (rq : Request) (hm : rq ∈ (facebookRun env host anet net).requests) :
    rq.channel = .sharedClient := by
  obtain ⟨i, s, k, sec⟩ := env
  cases i with
  | none => simp [facebookRun, fbReadCreds] at hm
  | some a =>
    cases s with
    | none => simp [facebookRun, fbReadCreds] at hm
    | some b =>
      cases anet with
      | transportErr =>
        simp [facebookRun, fbReadCreds, fbAuthenticate] at hm
        subst hm; rfl
      | decodeErr =>
        simp [facebookRun, fbReadCreds, fbAuthenticate] at hm
        subst hm; rfl
      | ok t =>
        cases t with
        | none =>
          simp [facebookRun, fbReadCreds, fbAuthenticate] at hm
          subst hm; rfl
        | some tok =>
          cases net with
          | transportErr =>
            simp [facebookRun, fbReadCreds, fbAuthenticate] at hm
            rcases hm with rfl | rfl <;> rfl
          | decodeErr =>
            simp [facebookRun, fbReadCreds, fbAuthenticate] at hm
            rcases hm with rfl | rfl <;> rfl
          | ok od =>
            cases od with
            | none =>
              simp [facebookRun, fbReadCreds, fbAuthenticate] at hm
              rcases hm with rfl | rfl <;> rfl
            | some d =>
              by_cases hc : (fbSubdomains d).isEmpty <;>
                simp [facebookRun, fbReadCreds, fbAuthenticate, hc] at hm <;>
                rcases hm with rfl | rfl <;> rfl

/-- Every request PassiveTotal::run issues goes through the shared client. -/
theorem passivetotal_requests_shared (env : Env) (host : String) (net : PtNet)
    (rq : Request) (hm : rq ∈ (passivetotalRun env host net).requests) :
    rq.channel = .sharedClient := by
  obtain ⟨i, s, k, sec⟩ := env
  cases k with
  | none => simp [passivetotalRun, ptReadCreds] at hm
  | some kv =>
    cases sec with
    | none => simp [passivetotalRun, ptReadCreds] at hm
    | some sv =>
      cases net with
      | transportErr =>
        simp [passivetotalRun, ptReadCreds] at hm; subst hm; rfl
      | clientError =>
        simp [passivetotalRun, ptReadCreds] at hm; subst hm; rfl
      | decodeErr =>
        simp [passivetotalRun, ptReadCreds] at hm; subst hm; rfl
      | ok r =>
        by_cases hc : (ptSubdomains r).isEmpty <;>
          simp [passivetotalRun, ptReadCreds, hc] at hm <;> subst hm <;> rfl

/-- C4 counterexample: certspotter.rs issues its request through `surf::get`
— surf's global client — and not through the shared `reqwest::Client`, so the
Runner's timeout and connection pool do not govern it. -/
theorem C4_certspotter_bypasses_shared_client :
    (certspotterRun "example.com" (.ok none)).requests =
      [⟨.surfGlobal, certspotterBuildUrl "example.com"⟩] ∧
    HttpChannel.surfGlobal ≠ HttpChannel.sharedClient :=
  ⟨rfl, by decide⟩

/-- C4 (amended): every request issued by AnubisDB, Facebook, and PassiveTotal
goes through the shared HTTP client; CertSpotter bypasses it via surf's global
client. -/
theorem C4_shared_client_only :
    (∀ host net r, anubisRun host net = some r →
      ∀ rq ∈ r.requests, rq.channel = .sharedClient) ∧
    (∀ env host anet net rq, rq ∈ (facebookRun env host anet net).requests →
      rq.channel = .sharedClient) ∧
    (∀ env host net rq, rq ∈ (passivetotalRun env host net).requests →
      rq.channel = .sharedClient) := by
  refine ⟨?_, facebook_requests_shared, passivetotal_requests_shared⟩
  intro host net r h rq hm
  rw [anubis_requests host net r h] at hm
  rw [List.mem_singleton] at hm
  subst hm; rfl

/-- C4 witness: the shared-client property of the amended claim at a concrete
AnubisDB fetch. -/
theorem C4_shared_client_witness :
    (Request.mk HttpChannel.sharedClient (anubisBuildUrl "example.com")).channel =
      HttpChannel.sharedClient :=
  C4_shared_client_only.1 "example.com" .transportErr
    ⟨[⟨.sharedClient, anubisBuildUrl "example.com"⟩], [], .error .transport⟩ rfl
    ⟨.sharedClient, anubisBuildUrl "example.com"⟩ (List.mem_singleton.mpr rfl)

/-- C5: the keyed adapters read credentials from the (per-call) environment
inside `run`; when a required variable is absent they issue no request, push
nothing, and return `Error::key_error` for just that source. -/
theorem C5_missing_credentials :
    (∀ env host anet net, (env.fb_app_id = none ∨ env.fb_app_secret = none) →
      facebookRun env host anet net =
        ⟨[], [], .error (.keyError "Facebook" ["FB_APP_ID", "FB_APP_SECRET"])⟩) ∧
    (∀ env host net, (env.passivetotal_key = none ∨ env.passivetotal_secret = none) →
      passivetotalRun env host net =
        ⟨[], [], .error (.keyError "PassiveTotal"
          ["PASSIVETOTAL_KEY", "PASSIVETOTAL_SECRET"])⟩) :=
  ⟨facebook_missing_creds, passivetotal_missing_creds⟩

/-- C5 witness: both keyed adapters at an empty environment. -/
theorem C5_missing_credentials_witness :
    facebookRun ⟨none, none, none, none⟩ "example.com" .transportErr .transportErr =
      ⟨[], [], .error (.keyError "Facebook" ["FB_APP_ID", "FB_APP_SECRET"])⟩ ∧
    passivetotalRun ⟨none, none, none, none⟩ "example.com" .transportErr =
      ⟨[], [], .error (.keyError "PassiveTotal"
        ["PASSIVETOTAL_KEY", "PASSIVETOTAL_SECRET"])⟩ :=
  ⟨C5_missing_credentials.1 _ _ _ _ (Or.inl rfl),
    C5_missing_credentials.2 _ _ _ (Or.inl rfl)⟩

/-- C6 counterexample: certspotter.rs accumulates candidates in a `HashSet`,
so an upstream response listing `a.example.com` twice yields a one-element
collection — the emitted collection cannot list the candidates in upstream
order (which has two entries). -/
theorem C6_certspotter_drops_duplicates :
    (certspotterRun "example.com"
        (.ok (some [⟨["a.example.com", "a.example.com"]⟩]))).result =
      .ok ["a.example.com"] ∧
    (["a.example.com"] : List String) ≠ ["a.example.com", "a.example.com"] :=
  ⟨rfl, by decide⟩

/-- C6 (amended): AnubisDB, Facebook, and PassiveTotal emit their batch in
upstream response order — element by element for AnubisDB and PassiveTotal,
and as the in-order concatenation of the `domains` lists for Facebook;
CertSpotter instead collects into a set, losing duplicates and order. -/
theorem C6_batch_order_preserved :
    (∀ host xs r, anubisRun host (.ok (some (Json.arr xs))) = some r →
      ∀ batch ∈ r.sends,
        List.Forall₂ (fun v out => out = jsonToString v) xs batch) ∧
    (∀ env host anet net batch, batch ∈ (facebookRun env host anet net).sends →
      ∃ d, net = .ok (some d) ∧ batch = (d.data.map (·.domains)).flatten) ∧
    (∀ env host r batch, batch ∈ (passivetotalRun env host (.ok r)).sends →
      List.Forall₂ (fun s out => out = s ++ "." ++ r.primaryDomain)
        r.subdomains batch) := by
  refine ⟨?_, ?_, ?_⟩
  · intro host xs r h batch hb
    dsimp only [anubisRun, anubisSubdomains] at h
    by_cases he : (xs.map jsonToString).isEmpty <;> simp [he] at h <;>
      rw [← h] at hb <;> simp at hb
    subst hb
    exact forall₂_map_self jsonToString xs
  · intro env host anet net batch hb
    obtain ⟨i, s, k, sec⟩ := env
    cases i with
    | none => simp [facebookRun, fbReadCreds] at hb
    | some a =>
      cases s with
      | none => simp [facebookRun, fbReadCreds] at hb
      | some b =>
        cases anet with
        | transportErr => simp [facebookRun, fbReadCreds, fbAuthenticate] at hb
        | decodeErr => simp [facebookRun, fbReadCreds, fbAuthenticate] at hb
        | ok t =>
          cases t with
          | none => simp [facebookRun, fbReadCreds, fbAuthenticate] at hb
          | some tok =>
            cases net with
            | transportErr => simp [facebookRun, fbReadCreds, fbAuthenticate] at hb
            | decodeErr => simp [facebookRun, fbReadCreds, fbAuthenticate] at hb
            | ok od =>
              cases od with
              | none => simp [facebookRun, fbReadCreds, fbAuthenticate] at hb
              | some d =>
                by_cases hc : (fbSubdomains d).isEmpty <;>
                  simp [facebookRun, fbReadCreds, fbAuthenticate, hc] at hb
                subst hb
                exact ⟨d, rfl, List.flatMap_def d.data (·.domains)⟩
  · intro env host r batch hb
    obtain ⟨i, s, k, sec⟩ := env
    cases k with
    | none => simp [passivetotalRun, ptReadCreds] at hb
    | some kv =>
      cases sec with
      | none => simp [passivetotalRun, ptReadCreds] at hb
      | some sv =>
        by_cases hc : (ptSubdomains r).isEmpty <;>
          simp [passivetotalRun, ptReadCreds, hc] at hb
        subst hb
        exact forall₂_map_self _ r.subdomains

/-- C6 witness: the order-preservation statements at concrete responses. -/
theorem C6_batch_order_witness :
    List.Forall₂ (fun v out => out = jsonToString v)
      [Json.str "a.example.com"] [jsonToString (Json.str "a.example.com")] ∧
    (∃ d, (NetResult.ok (some ⟨[⟨["a.example.com"]⟩]⟩) :
        NetResult (Option FacebookResult)) = .ok (some d) ∧
      fbSubdomains ⟨[⟨["a.example.com"]⟩]⟩ = (d.data.map (·.domains)).flatten) ∧
    List.Forall₂ (fun s out => out = s ++ "." ++ "example.com")
      ["www"] (ptSubdomains ⟨true, "example.com", ["www"]⟩) := by
  refine ⟨?_, ?_, ?_⟩
  · exact C6_batch_order_preserved.1 "example.com" [Json.str "a.example.com"]
      ⟨[⟨.sharedClient, anubisBuildUrl "example.com"⟩],
        [[jsonToString (Json.str "a.example.com")]], .ok ()⟩ rfl
      [jsonToString (Json.str "a.example.com")] (List.mem_singleton.mpr rfl)
  · exact C6_batch_order_preserved.2.1 ⟨some "i", some "s", none, none⟩
      "example.com" (.ok (some "t")) (.ok (some ⟨[⟨["a.example.com"]⟩]⟩))
      (fbSubdomains ⟨[⟨["a.example.com"]⟩]⟩)
      (by simp [facebookRun, fbReadCreds, fbAuthenticate, fbSubdomains])
  · exact C6_batch_order_preserved.2.2 ⟨none, none, some "k", some "sec"⟩
      "example.com" ⟨true, "example.com", ["www"]⟩
      (ptSubdomains ⟨true, "example.com", ["www"]⟩)
      (by simp [passivetotalRun, ptReadCreds, ptSubdomains])

/-- C7: every hostname `main` prints — in flush mode as the stream is
consumed, or from the accumulated set afterwards — is the cleaner's output on
some element of some batch; no raw batch element reaches stdout unfiltered. -/
theorem C7_output_is_cleaned (cleanFn : String → Option String) (flush : Bool)
    (batches : List (List String)) (out : String)
    (h : out ∈ mainOutput cleanFn flush batches) :
    ∃ b ∈ batches, ∃ raw ∈ b, cleanFn raw = some out := by
  have hmem : out ∈ (batches.map (cleanBatch cleanFn)).flatten := by
    cases flush with
    | true => simpa [mainOutput] using h
    | false =>
      simp only [mainOutput, Bool.false_eq_true, if_false] at h
      rcases mem_foldl_hashSetInsert _ _ h with h1 | h1
      · exact absurd h1 (List.not_mem_nil out)
      · exact h1
  rw [List.mem_flatten] at hmem
  obtain ⟨l, hl, hout⟩ := hmem
  rw [List.mem_map] at hl
  obtain ⟨b, hb, rfl⟩ := hl
  rw [cleanBatch, List.mem_filterMap] at hout
  obtain ⟨raw, hraw, hclean⟩ := hout
  exact ⟨b, hb, raw, hraw, hclean⟩

/-- C7 witness: the cleaned-output property at a one-batch run with the
always-keep cleaner. -/
theorem C7_output_is_cleaned_witness :
    ∃ b ∈ [["a.example.com"]], ∃ raw ∈ b,
      (fun s => some s : String → Option String) raw = some "a.example.com" :=
  C7_output_is_cleaned (fun s => some s) true [["a.example.com"]] "a.example.com"
    (by simp [mainOutput, cleanBatch])

/-- C8: in non-flush mode `main` accumulates cleaned hostnames in a
`HashSet`, so the printed output never contains a duplicate line. -/
theorem C8_no_duplicate_output (cleanFn : String → Option String)
    (batches : List (List String)) :
    (mainOutput cleanFn false batches).Nodup :=
  nodup_foldl_hashSetInsert _ [] List.nodup_nil

/-- C9: every hostname in a batch PassiveTotal emits is
`s ++ "." ++ primaryDomain` for some `s` in the parsed response's
`subdomains`, and in particular carries the response's primary domain as a
dot-preceded suffix. -/
theorem C9_passivetotal_primary_suffix (env : Env) (host : String)
    (r : PassiveTotalResult) (batch : List String)
    (hb : batch ∈ (passivetotalRun env host (.ok r)).sends)
    (x : String) (hx : x ∈ batch) :
    ∃ s ∈ r.subdomains, x = s ++ "." ++ r.primaryDomain ∧
      List.IsSuffix ("." ++ r.primaryDomain).data x.data := by
  obtain ⟨i, s0, k, sec⟩ := env
  cases k with
  | none => simp [passivetotalRun, ptReadCreds] at hb
  | some kv =>
    cases sec with
    | none => simp [passivetotalRun, ptReadCreds] at hb
    | some sv =>
      by_cases hc : (ptSubdomains r).isEmpty <;>
        simp [passivetotalRun, ptReadCreds, hc] at hb
      subst hb
      rw [ptSubdomains, List.mem_map] at hx
      obtain ⟨s, hs, rfl⟩ := hx
      refine ⟨s, hs, rfl, ⟨s.data, ?_⟩⟩
      rw [String.data_append, String.data_append, String.data_append,
        List.append_assoc]

/-- C9 witness: the dot-preceded-suffix property at a concrete PassiveTotal
response. -/
theorem C9_passivetotal_suffix_witness :
    ∃ s ∈ ["www"], "www.example.com" = s ++ "." ++ "example.com" ∧
      List.IsSuffix ("." ++ "example.com").data "www.example.com".data := by
  have h := C9_passivetotal_primary_suffix ⟨none, none, some "k", some "sec"⟩
    "example.com" ⟨true, "example.com", ["www"]⟩
    (ptSubdomains ⟨true, "example.com", ["www"]⟩)
    (by simp [passivetotalRun, ptReadCreds, ptSubdomains])
    "www.example.com" (by simp [ptSubdomains])
  simpa using h

/-- C10: each batch AnubisDB emits is the element-by-element serde_json
serialization of the response array, and the serialization of a JSON string
starts and ends with a double-quote character, which downstream cleaning must
strip. -/
theorem C10_anubis_serialized_elements :
    (∀ host xs r, anubisRun host (.ok (some (Json.arr xs))) = some r →
      ∀ batch ∈ r.sends, batch = xs.map jsonToString) ∧
    (∀ s : String, (jsonToString (Json.str s)).data.head? = some '"' ∧
      (jsonToString (Json.str s)).data.getLast? = some '"') := by
  constructor
  · intro host xs r h batch hb
    dsimp only [anubisRun, anubisSubdomains] at h
    by_cases he : (xs.map jsonToString).isEmpty <;> simp [he] at h <;>
      rw [← h] at hb <;> simp at hb
    exact hb
  · intro s
    have hs : jsonToString (Json.str s) = "\"" ++ escapeString s ++ "\"" := by
      simp [jsonToString]
    rw [hs, String.data_append, String.data_append]
    constructor
    · rfl
    · exact List.getLast?_concat _

/-- C10 witness: the serialization properties at a concrete one-string
response array. -/
theorem C10_anubis_serialized_witness :
    ([jsonToString (Json.str "a.example.com")] =
      [Json.str "a.example.com"].map jsonToString) ∧
    ((jsonToString (Json.str "a.example.com")).data.head? = some '"' ∧
      (jsonToString (Json.str "a.example.com")).data.getLast? = some '"') :=
  ⟨C10_anubis_serialized_elements.1 "example.com" [Json.str "a.example.com"]
      ⟨[⟨.sharedClient, anubisBuildUrl "example.com"⟩],
        [[jsonToString (Json.str "a.example.com")]], .ok ()⟩ rfl
      [jsonToString (Json.str "a.example.com")] (List.mem_singleton.mpr rfl),
    C10_anubis_serialized_elements.2 "a.example.com"⟩

end Vita
